import Mathlib

/-!
Shallow embedding of the token-rotating, rate-limit-aware HTTP fetch layer of
the OSH_Data repository: the `GitHubTokenManager` class and the retry loops of
`OptimizedGitHubAPIClient` (src/SRC/data_collection/github_metadata_collector.py)
and `OptimizedGitLabAPIClient` (src/SRC/data_collection/gitlab_metadata_extration.py).

HTTP traffic is modelled by a stream of per-attempt events (a response, or a
`requests.exceptions.RequestException`); the fetch functions additionally record
an instrumentation trace (number of attempts, rotate_token calls, sleeps) so that
the claims about retries, rotation and cooldowns can be stated.
-/

namespace OSHData

/-! ## Dates and `datetime.strptime(expiration_date, a year-month-day format)` -/

/-- A calendar date, as produced by a successful `strptime` parse. -/
structure Date where
  year : Nat
  month : Nat
  day : Nat
deriving DecidableEq, Repr

def isLeapYear (y : Nat) : Bool :=
  (y % 4 == 0 && y % 100 != 0) || y % 400 == 0

def daysInMonth (y m : Nat) : Nat :=
  if m == 2 then (if isLeapYear y then 29 else 28)
  else if m == 4 || m == 6 || m == 9 || m == 11 then 30
  else 31

/-- Value of a digit-character list (assumed checked by `digitField`). -/
def natOfDigits (cs : List Char) : Nat :=
  cs.foldl (fun n c => n * 10 + (c.toNat - 48)) 0

/-- A month or day field of `strptime`: between 1 and `maxLen` ASCII digits. -/
def digitField (cs : List Char) (maxLen : Nat) : Option Nat :=
  if 1 ≤ cs.length && cs.length ≤ maxLen && cs.all Char.isDigit then
    some (natOfDigits cs)
  else
    none

/-- The year field of `strptime`: exactly 4 ASCII digits, and `datetime`
additionally requires a year of at least 1 (year 0 raises). -/
def yearField (cs : List Char) : Option Nat :=
  if cs.length == 4 && cs.all Char.isDigit && 1 ≤ natOfDigits cs then
    some (natOfDigits cs)
  else
    none

/-- Python's `split` on the dash character, on character lists. -/
def splitDash : List Char → List (List Char)
  | [] => [[]]
  | c :: rest =>
    let r := splitDash rest
    if c == '-' then [] :: r
    else (c :: r.headD []) :: r.tail

/-- `datetime.strptime(s, yearDashMonthDashDay)`: a 4-digit year of at least 1,
then month and day separated by dashes, month in 1..12, day valid for the
month (leap years included); anything else raises, modelled as `none`. -/
def parseDate (s : String) : Option Date :=
  match splitDash s.data with
  | [ys, ms, ds] =>
    match yearField ys, digitField ms 2, digitField ds 2 with
    | some y, some m, some d =>
      if 1 ≤ m && m ≤ 12 && 1 ≤ d && d ≤ daysInMonth y m then some ⟨y, m, d⟩
      else none
    | _, _, _ => none
  | _ => none

/-- `exp_date.date() > datetime.now().date()`: strict lexicographic order on dates. -/
def dateGt (a b : Date) : Bool :=
  a.year > b.year ||
  (a.year == b.year && (a.month > b.month ||
    (a.month == b.month && a.day > b.day)))

/-- `dateLt a b` means `a` is strictly in the past relative to `b`. -/
def dateLt (a b : Date) : Bool := dateGt b a

/-! ## `GitHubTokenManager` (identical in both collectors) -/

/-- `GitHubTokenManager._is_token_valid`, relative to the current date `today`. -/
def is_token_valid (today : Date) (expiration_date : Option String) : Bool :=
  match expiration_date with
  | none => true
  | some s =>
    if s == "" then true
    else
      match parseDate s with
      | some exp_date => dateGt exp_date today
      | none => true

/-- One entry of the `tokens:` mapping of a YAML token file:
`user_data.get('token')` and `user_data.get('expiration_date')`. -/
structure YamlEntry where
  token : Option String
  expiration_date : Option String
deriving DecidableEq, Repr

/-- The content of a token file, as seen by `_load_tokens`:
* `yamlFile none` — a YAML file whose data has no `tokens` key (the raised
  `ValueError` is swallowed by the generic handler, leaving zero tokens);
* `yamlFile (some entries)` — a YAML file with a `tokens` mapping;
* `yamlParseError lines` — a `.yaml`/`.yml` file that fails YAML parsing and is
  re-read as a plain text file;
* `textFile lines` — a non-YAML file read line by line. -/
inductive TokenFile where
  | yamlFile (entries : Option (List YamlEntry))
  | yamlParseError (lines : List String)
  | textFile (lines : List String)
deriving DecidableEq, Repr

/-- The whitespace characters removed by Python's `str.strip`
(ASCII fragment). -/
def pyIsSpace (c : Char) : Bool :=
  c == ' ' || c == '\t' || c == '\n' || c == '\r' || c == '\x0b' || c == '\x0c'

/-- Python's `str.strip`: drop leading and trailing whitespace. -/
def pyStrip (cs : List Char) : List Char :=
  ((cs.dropWhile pyIsSpace).reverse.dropWhile pyIsSpace).reverse

/-- Leading-segment test on character lists: `charsLeading sub hay` holds when
`hay` starts with `sub`. -/
def charsLeading : List Char → List Char → Bool
  | [], _ => true
  | _ :: _, [] => false
  | a :: as, b :: bs => a == b && charsLeading as bs

/-- The per-line filter of the plain-text branches:
`token = line.strip()`, kept if nonempty and not starting with a hash. -/
def stripLine (line : String) : Option String :=
  let token := pyStrip line.data
  if token != [] && !(charsLeading ['#'] token) then some (String.mk token)
  else none

/-- `GitHubTokenManager._load_tokens`. -/
def load_tokens (today : Date) : TokenFile → List String
  | .yamlFile none => []
  | .yamlFile (some entries) =>
    entries.filterMap fun e =>
      match e.token with
      | some t => if t != "" && is_token_valid today e.expiration_date then some t else none
      | none => none
  | .yamlParseError lines => lines.filterMap stripLine
  | .textFile lines => lines.filterMap stripLine

/-- The state of a `GitHubTokenManager`: the token pool and the pool cursor. -/
@[ext] structure GitHubTokenManager where
  tokens : List String
  current_index : Nat
deriving DecidableEq, Repr

/-- The pool loaded by the first half of `GitHubTokenManager.__init__`:
from the file when the argument was given and the file exists, otherwise from
the environment variable (`none` when unset; the empty string is falsy in
Python, so it also raises). -/
def loadedTokens (token_file : Option TokenFile) (envToken : Option String)
    (today : Date) : Except String (List String) :=
  match token_file with
  | some f => .ok (load_tokens today f)
  | none =>
    match envToken with
    | some t =>
      if t == "" then .error "No GitHub token provided" else .ok [t]
    | none => .error "No GitHub token provided"

/-- `GitHubTokenManager.__init__`: load the pool, fail if it came out empty,
otherwise start the cursor at 0. -/
def tokenManagerInit (token_file : Option TokenFile) (envToken : Option String)
    (today : Date) : Except String GitHubTokenManager :=
  match loadedTokens token_file envToken today with
  | .error e => .error e
  | .ok ts => if ts == [] then .error "No valid tokens found" else .ok ⟨ts, 0⟩

/-- `GitHubTokenManager.get_token`: `self.tokens[self.current_index]`; `none`
models the `IndexError` raised when the cursor is out of range. -/
def GitHubTokenManager.get_token (m : GitHubTokenManager) : Option String :=
  m.tokens[m.current_index]?

/-- `GitHubTokenManager.rotate_token`: advance the cursor circularly, but only
when the pool holds more than one token. -/
def GitHubTokenManager.rotate_token (m : GitHubTokenManager) : GitHubTokenManager :=
  if m.tokens.length > 1 then
    { m with current_index := (m.current_index + 1) % m.tokens.length }
  else m

/-! ## HTTP responses and attempt events -/

/-- ASCII lowercasing of one character, the fragment of Python's `str.lower`
relevant to the rate-limit marker search. -/
def lowerChar (c : Char) : Char :=
  if 65 ≤ c.toNat && c.toNat ≤ 90 then Char.ofNat (c.toNat + 32) else c

/-- Python's substring containment `sub in hay`, on character lists. -/
def charsContain : List Char → List Char → Bool
  | [], sub => charsLeading sub []
  | hay@(_ :: t), sub => charsLeading sub hay || charsContain t sub

/-- The marker text searched for (case-insensitively) in 403 response bodies. -/
def rateLimitMarker : List Char := ("rate limit exceeded").data

/-- An HTTP response, with the fields the fetch layer looks at: the status
code, the remaining-rate-limit header (`none` when absent), the body text,
and the decoded JSON body (abstracted as a number). -/
structure Response where
  status : Nat
  rateLimitRemaining : Option Nat
  text : String
  jsonBody : Nat
deriving DecidableEq, Repr

/-- What one attempt of the retry loop observes: a response, or a
`requests.exceptions.RequestException` raised by the GET call. -/
inductive AttemptEvent where
  | resp (r : Response)
  | exn
deriving DecidableEq, Repr

/-- The observable behaviour of one call to `_fetch_endpoint_with_retry`:
the returned value, the number of attempts performed, the number of calls to
`rotate_token`, the list of sleep durations (in order), and the final state of
the shared token manager. -/
structure FetchTrace where
  result : Option Nat
  attempts : Nat
  rotateCalls : Nat
  sleeps : List Nat
  finalMgr : GitHubTokenManager
deriving DecidableEq, Repr

/-! ## `OptimizedGitHubAPIClient` -/

namespace OptimizedGitHubAPIClient

/-- `OptimizedGitHubAPIClient._handle_rate_limit`: returns whether the request
should be retried, the token manager after any rotation, and the number of
`rotate_token` calls made (0 or 1).  On 403 the remaining-rate-limit header
defaults to 0 when absent, and the body is searched case-insensitively for the
rate-limit marker. -/
def handle_rate_limit (m : GitHubTokenManager) (r : Response) :
    Bool × GitHubTokenManager × Nat :=
  if r.status == 403 then
    let rate_limit_remaining := r.rateLimitRemaining.getD 0
    if rate_limit_remaining == 0 || charsContain (r.text.data.map lowerChar) rateLimitMarker then
      (true, m.rotate_token, 1)
    else (false, m, 0)
  else if r.status == 401 then
    (true, m.rotate_token, 1)
  else (false, m, 0)

/-- The retry loop of `OptimizedGitHubAPIClient._fetch_endpoint_with_retry`:
`remaining` counts the loop iterations still available, so the current
iteration is attempt number `maxRetries - remaining` (0-based); `events i`
is what attempt `i` observes.  On a response: 200 returns the JSON body, 404
returns `none`, otherwise `_handle_rate_limit` decides between retrying and
abandoning with `none`.  On an exception the loop sleeps `2 ^ attempt` except
after the last attempt, then proceeds; falling off the loop returns `none`. -/
def fetchGo (events : Nat → AttemptEvent) (maxRetries : Nat) :
    Nat → GitHubTokenManager → FetchTrace
  | 0, mgr => ⟨none, 0, 0, [], mgr⟩
  | remaining + 1, mgr =>
    let attempt := maxRetries - (remaining + 1)
    match events attempt with
    | .resp r =>
      if r.status == 200 then ⟨some r.jsonBody, 1, 0, [], mgr⟩
      else if r.status == 404 then ⟨none, 1, 0, [], mgr⟩
      else
        match handle_rate_limit mgr r with
        | (true, mgr2, rot) =>
          let t := fetchGo events maxRetries remaining mgr2
          ⟨t.result, t.attempts + 1, rot + t.rotateCalls, t.sleeps, t.finalMgr⟩
        | (false, mgr2, rot) => ⟨none, 1, rot, [], mgr2⟩
    | .exn =>
      let t := fetchGo events maxRetries remaining mgr
      if attempt < maxRetries - 1 then
        ⟨t.result, t.attempts + 1, t.rotateCalls, 2 ^ attempt :: t.sleeps, t.finalMgr⟩
      else
        ⟨t.result, t.attempts + 1, t.rotateCalls, t.sleeps, t.finalMgr⟩

/-- `OptimizedGitHubAPIClient._fetch_endpoint_with_retry` (default
`max_retries = 3`), instrumented with its trace. -/
def fetch_endpoint_with_retry (mgr : GitHubTokenManager)
    (events : Nat → AttemptEvent) (maxRetries : Nat := 3) : FetchTrace :=
  fetchGo events maxRetries maxRetries mgr

/-- An attempt event the GitHub client classifies as recoverable: a network
exception, a 401, or a 403 with zero remaining quota or the rate-limit marker
in the body. -/
def recoverable (e : AttemptEvent) : Bool :=
  match e with
  | .exn => true
  | .resp r =>
    (r.status == 403 &&
      (r.rateLimitRemaining.getD 0 == 0 ||
        charsContain (r.text.data.map lowerChar) rateLimitMarker)) ||
    r.status == 401

end OptimizedGitHubAPIClient

/-! ## `OptimizedGitLabAPIClient` -/

namespace OptimizedGitLabAPIClient

/-- `OptimizedGitLabAPIClient._handle_rate_limit`: on 429 sleep 60 seconds and
retry; on 401 print and do NOT retry; no rotation ever happens.  Returns
whether to retry and the sleeps performed inside the handler. -/
def handle_rate_limit (r : Response) : Bool × List Nat :=
  if r.status == 429 then (true, [60])
  else if r.status == 401 then (false, [])
  else (false, [])

/-- The retry loop of `OptimizedGitLabAPIClient._fetch_endpoint_with_retry`;
same shape as the GitHub one, but rate-limit handling neither rotates nor
touches the token manager. -/
def fetchGo (events : Nat → AttemptEvent) (maxRetries : Nat) :
    Nat → GitHubTokenManager → FetchTrace
  | 0, mgr => ⟨none, 0, 0, [], mgr⟩
  | remaining + 1, mgr =>
    let attempt := maxRetries - (remaining + 1)
    match events attempt with
    | .resp r =>
      if r.status == 200 then ⟨some r.jsonBody, 1, 0, [], mgr⟩
      else if r.status == 404 then ⟨none, 1, 0, [], mgr⟩
      else
        match handle_rate_limit r with
        | (true, slps) =>
          let t := fetchGo events maxRetries remaining mgr
          ⟨t.result, t.attempts + 1, t.rotateCalls, slps ++ t.sleeps, t.finalMgr⟩
        | (false, slps) => ⟨none, 1, 0, slps, mgr⟩
    | .exn =>
      let t := fetchGo events maxRetries remaining mgr
      if attempt < maxRetries - 1 then
        ⟨t.result, t.attempts + 1, t.rotateCalls, 2 ^ attempt :: t.sleeps, t.finalMgr⟩
      else
        ⟨t.result, t.attempts + 1, t.rotateCalls, t.sleeps, t.finalMgr⟩

/-- `OptimizedGitLabAPIClient._fetch_endpoint_with_retry` (default
`max_retries = 3`), instrumented with its trace. -/
def fetch_endpoint_with_retry (mgr : GitHubTokenManager)
    (events : Nat → AttemptEvent) (maxRetries : Nat := 3) : FetchTrace :=
  fetchGo events maxRetries maxRetries mgr

/-- An attempt event the GitLab client classifies as recoverable: a network
exception or a 429 response. -/
def recoverable (e : AttemptEvent) : Bool :=
  match e with
  | .exn => true
  | .resp r => r.status == 429

end OptimizedGitLabAPIClient

/-! ## Helper lemmas on the token manager -/

theorem rotate_token_tokens (m : GitHubTokenManager) :
    m.rotate_token.tokens = m.tokens := by
  unfold GitHubTokenManager.rotate_token
  split <;> rfl

theorem rotate_token_index (m : GitHubTokenManager) (h : 1 < m.tokens.length) :
    m.rotate_token.current_index = (m.current_index + 1) % m.tokens.length := by
  unfold GitHubTokenManager.rotate_token
  rw [if_pos h]

theorem rotate_token_noop (m : GitHubTokenManager) (h : ¬ 1 < m.tokens.length) :
    m.rotate_token = m := by
  unfold GitHubTokenManager.rotate_token
  rw [if_neg h]

theorem rotate_token_index_lt (m : GitHubTokenManager)
    (h : m.current_index < m.tokens.length) :
    m.rotate_token.current_index < m.rotate_token.tokens.length := by
  rw [rotate_token_tokens]
  by_cases h1 : 1 < m.tokens.length
  · rw [rotate_token_index m h1]
    exact Nat.mod_lt _ (by omega)
  · rw [rotate_token_noop m h1]
    exact h

theorem rotate_token_iterate (m : GitHubTokenManager) (h1 : 1 < m.tokens.length)
    (h2 : m.current_index < m.tokens.length) (k : Nat) :
    (GitHubTokenManager.rotate_token^[k] m).tokens = m.tokens ∧
    (GitHubTokenManager.rotate_token^[k] m).current_index =
      (m.current_index + k) % m.tokens.length := by
  induction k with
  | zero => simpa using (Nat.mod_eq_of_lt h2).symm
  | succ n ih =>
    obtain ⟨ht, hi⟩ := ih
    rw [Function.iterate_succ_apply']
    refine ⟨by rw [rotate_token_tokens, ht], ?_⟩
    rw [rotate_token_index _ (by rw [ht]; exact h1), ht, hi]
    have h1' : (1 : Nat) % m.tokens.length = 1 := Nat.mod_eq_of_lt h1
    calc ((m.current_index + n) % m.tokens.length + 1) % m.tokens.length
        = ((m.current_index + n) % m.tokens.length + 1 % m.tokens.length) %
            m.tokens.length := by rw [h1']
      _ = (m.current_index + n + 1) % m.tokens.length := (Nat.add_mod _ _ _).symm
      _ = (m.current_index + (n + 1)) % m.tokens.length := by rw [Nat.add_assoc]

theorem tokenManagerInit_ok_shape (tf : Option TokenFile) (env : Option String)
    (today : Date) (m0 : GitHubTokenManager)
    (h : tokenManagerInit tf env today = .ok m0) :
    m0.current_index = 0 ∧ m0.tokens ≠ [] := by
  unfold tokenManagerInit at h
  split at h
  · exact absurd h (by simp)
  · rename_i ts heq
    split at h
    · exact absurd h (by simp)
    · rename_i hne
      obtain rfl : (⟨ts, 0⟩ : GitHubTokenManager) = m0 := by simpa using h
      refine ⟨rfl, ?_⟩
      simpa using hne

/-- Claim C4: for every credential pool of more than one token and every
cursor position inside the pool, `pool size` many consecutive applications of
`rotate_token` return the cursor to its starting position. -/
theorem rotate_token_cycle (m : GitHubTokenManager) (h1 : 1 < m.tokens.length)
    (h2 : m.current_index < m.tokens.length) :
    GitHubTokenManager.rotate_token^[m.tokens.length] m = m := by
  obtain ⟨ht, hi⟩ := rotate_token_iterate m h1 h2 m.tokens.length
  refine GitHubTokenManager.ext ht ?_
  rw [hi, Nat.add_mod_right]
  exact Nat.mod_eq_of_lt h2

theorem rotate_token_cycle_witness :
    1 < (GitHubTokenManager.mk ["a", "b", "c"] 1).tokens.length ∧
    GitHubTokenManager.rotate_token^[3] ⟨["a", "b", "c"], 1⟩ = ⟨["a", "b", "c"], 1⟩ :=
  ⟨by decide, rotate_token_cycle ⟨["a", "b", "c"], 1⟩ (by decide) (by decide)⟩

/-- Claim C5: after a successful initialization the cursor is 0 and inside the
pool, and from any state with the cursor inside the pool, `rotate_token`
keeps it inside the pool and `get_token` reads the pool in range. -/
theorem cursor_invariant (tf : Option TokenFile) (env : Option String)
    (today : Date) (m0 m : GitHubTokenManager)
    (hinit : tokenManagerInit tf env today = .ok m0)
    (hm : m.current_index < m.tokens.length) :
    (m0.current_index = 0 ∧ m0.current_index < m0.tokens.length) ∧
    m.rotate_token.current_index < m.rotate_token.tokens.length ∧
    m.get_token.isSome = true := by
  obtain ⟨hz, hne⟩ := tokenManagerInit_ok_shape tf env today m0 hinit
  refine ⟨⟨hz, ?_⟩, rotate_token_index_lt m hm, ?_⟩
  · rw [hz]
    exact List.length_pos.mpr hne
  · unfold GitHubTokenManager.get_token
    rw [List.getElem?_eq_getElem hm]
    rfl

theorem cursor_invariant_witness :
    tokenManagerInit none (some "tok") ⟨2026, 10, 12⟩ = .ok ⟨["tok"], 0⟩ ∧
    ((GitHubTokenManager.mk ["a", "b"] 1).current_index <
      (GitHubTokenManager.mk ["a", "b"] 1).tokens.length) ∧
    (GitHubTokenManager.mk ["a", "b"] 1).rotate_token.current_index <
      (GitHubTokenManager.mk ["a", "b"] 1).rotate_token.tokens.length ∧
    (GitHubTokenManager.mk ["a", "b"] 1).get_token.isSome = true :=
  ⟨rfl, by decide,
    (cursor_invariant none (some "tok") ⟨2026, 10, 12⟩ ⟨["tok"], 0⟩ ⟨["a", "b"], 1⟩
      rfl (by decide)).2⟩

/-- Claim C8: token-manager initialization fails exactly when the loaded pool
is empty: with no token file and no (or an empty) environment token it errors,
with a token file from which zero tokens load it errors, and in the remaining
cases it succeeds with a nonempty pool. -/
theorem init_fails_iff_empty (tf : Option TokenFile) (env : Option String)
    (today : Date) :
    ((tf = none ∧ (env = none ∨ env = some "")) →
      ∃ e, tokenManagerInit tf env today = .error e) ∧
    (∀ f, tf = some f → load_tokens today f = [] →
      ∃ e, tokenManagerInit tf env today = .error e) ∧
    (∀ f, tf = some f → load_tokens today f ≠ [] →
      tokenManagerInit tf env today = .ok ⟨load_tokens today f, 0⟩) ∧
    (∀ t, tf = none → env = some t → t ≠ "" →
      tokenManagerInit tf env today = .ok ⟨[t], 0⟩) := by
  refine ⟨?_, ?_, ?_, ?_⟩
  · rintro ⟨rfl, rfl | rfl⟩
    · exact ⟨_, rfl⟩
    · exact ⟨_, rfl⟩
  · rintro f rfl hempty
    refine ⟨"No valid tokens found", ?_⟩
    simp [tokenManagerInit, loadedTokens, hempty]
  · rintro f rfl hne
    simp [tokenManagerInit, loadedTokens, hne]
  · rintro t rfl rfl hne
    simp [tokenManagerInit, loadedTokens, hne]

theorem init_fails_iff_empty_witness :
    (∃ e, tokenManagerInit none none ⟨2026, 10, 12⟩ = .error e) ∧
    (∃ e, tokenManagerInit (some (.yamlFile none)) none ⟨2026, 10, 12⟩ = .error e) ∧
    tokenManagerInit (some (.textFile ["tokA"])) none ⟨2026, 10, 12⟩ =
      .ok ⟨["tokA"], 0⟩ ∧
    tokenManagerInit none (some "tokB") ⟨2026, 10, 12⟩ = .ok ⟨["tokB"], 0⟩ :=
  ⟨(init_fails_iff_empty none none ⟨2026, 10, 12⟩).1 ⟨rfl, Or.inl rfl⟩,
    (init_fails_iff_empty (some (.yamlFile none)) none ⟨2026, 10, 12⟩).2.1
      (.yamlFile none) rfl (by decide),
    by
      have h := (init_fails_iff_empty (some (.textFile ["tokA"])) none
        ⟨2026, 10, 12⟩).2.2.1 (.textFile ["tokA"]) rfl (by decide)
      exact h.trans rfl,
    (init_fails_iff_empty none (some "tokB") ⟨2026, 10, 12⟩).2.2.2 "tokB" rfl rfl
      (by decide)⟩

/-- Claim C9, counterexample: a token whose `expiration_date` parses to the
current date — a date that is not strictly in the past — is nevertheless
excluded from the pool, so it is not true that only a parseable date strictly
in the past excludes a token. -/
theorem expiry_today_excluded :
    parseDate "2026-10-12" = some ⟨2026, 10, 12⟩ ∧
    dateLt ⟨2026, 10, 12⟩ ⟨2026, 10, 12⟩ = false ∧
    is_token_valid ⟨2026, 10, 12⟩ (some "2026-10-12") = false ∧
    load_tokens ⟨2026, 10, 12⟩
      (.yamlFile (some [⟨some "tok", some "2026-10-12"⟩])) = [] := by
  refine ⟨by decide, by decide, by decide, by decide⟩

/-- Claim C9, amended: a token whose `expiration_date` is present but does not
parse is treated as valid and included in the pool; a token whose date parses
is excluded exactly when the date is not strictly after the current date. -/
theorem unparseable_expiry_valid (today : Date) (t s : String) (ht : t ≠ "")
    (hp : parseDate s = none) :
    is_token_valid today (some s) = true ∧
    load_tokens today (.yamlFile (some [⟨some t, some s⟩])) = [t] ∧
    (∀ s2 : String, ∀ d : Date, parseDate s2 = some d →
      (is_token_valid today (some s2) = false ↔ dateGt d today = false)) := by
  have hvalid : is_token_valid today (some s) = true := by
    simp only [is_token_valid]
    split
    · rfl
    · rw [hp]
  refine ⟨hvalid, ?_, ?_⟩
  · simp [load_tokens, ht, hvalid]
  · intro s2 d hp2
    have hs2 : (s2 == "") = false := by
      rcases h : (s2 == "") with _ | _
      · rfl
      · rw [eq_of_beq h, show parseDate "" = none from rfl] at hp2
        exact absurd hp2 (by simp)
    simp [is_token_valid, hs2, hp2]

theorem unparseable_expiry_valid_witness :
    ("tok" : String) ≠ "" ∧ parseDate "not-a-date" = none ∧
    is_token_valid ⟨2026, 10, 12⟩ (some "not-a-date") = true ∧
    load_tokens ⟨2026, 10, 12⟩
      (.yamlFile (some [⟨some "tok", some "not-a-date"⟩])) = ["tok"] :=
  ⟨by decide, by decide,
    (unparseable_expiry_valid ⟨2026, 10, 12⟩ "tok" "not-a-date" (by decide)
      (by decide)).1,
    (unparseable_expiry_valid ⟨2026, 10, 12⟩ "tok" "not-a-date" (by decide)
      (by decide)).2.1⟩

/-! ## Helper lemmas on the GitHub fetch loop -/

theorem handle_401 (m : GitHubTokenManager) (r : Response) (h : r.status = 401) :
    OptimizedGitHubAPIClient.handle_rate_limit m r = (true, m.rotate_token, 1) := by
  simp [OptimizedGitHubAPIClient.handle_rate_limit, h]

theorem handle_403 (m : GitHubTokenManager) (r : Response) (h : r.status = 403)
    (hc : (r.rateLimitRemaining.getD 0 == 0 ||
      charsContain (r.text.data.map lowerChar) rateLimitMarker) = true) :
    OptimizedGitHubAPIClient.handle_rate_limit m r = (true, m.rotate_token, 1) := by
  simp only [OptimizedGitHubAPIClient.handle_rate_limit, h]
  simp [hc]

theorem handle_403_clean (m : GitHubTokenManager) (r : Response) (h : r.status = 403)
    (hz : (r.rateLimitRemaining.getD 0 == 0) = false)
    (hc : charsContain (r.text.data.map lowerChar) rateLimitMarker = false) :
    OptimizedGitHubAPIClient.handle_rate_limit m r = (false, m, 0) := by
  simp only [OptimizedGitHubAPIClient.handle_rate_limit, h]
  simp [hz, hc]

theorem handle_other (m : GitHubTokenManager) (r : Response)
    (h3 : r.status ≠ 403) (h1 : r.status ≠ 401) :
    OptimizedGitHubAPIClient.handle_rate_limit m r = (false, m, 0) := by
  simp [OptimizedGitHubAPIClient.handle_rate_limit, h3, h1]

theorem github_step_200 (events : Nat → AttemptEvent) (maxRetries remaining : Nat)
    (mgr : GitHubTokenManager) (r : Response)
    (he : events (maxRetries - (remaining + 1)) = .resp r) (h : r.status = 200) :
    OptimizedGitHubAPIClient.fetchGo events maxRetries (remaining + 1) mgr =
      ⟨some r.jsonBody, 1, 0, [], mgr⟩ := by
  simp [OptimizedGitHubAPIClient.fetchGo, he, h]

theorem github_step_404 (events : Nat → AttemptEvent) (maxRetries remaining : Nat)
    (mgr : GitHubTokenManager) (r : Response)
    (he : events (maxRetries - (remaining + 1)) = .resp r) (h : r.status = 404) :
    OptimizedGitHubAPIClient.fetchGo events maxRetries (remaining + 1) mgr =
      ⟨none, 1, 0, [], mgr⟩ := by
  simp [OptimizedGitHubAPIClient.fetchGo, he, h]

theorem github_step_retry (events : Nat → AttemptEvent) (maxRetries remaining : Nat)
    (mgr mgr2 : GitHubTokenManager) (rot : Nat) (r : Response)
    (he : events (maxRetries - (remaining + 1)) = .resp r)
    (h200 : r.status ≠ 200) (h404 : r.status ≠ 404)
    (hh : OptimizedGitHubAPIClient.handle_rate_limit mgr r = (true, mgr2, rot)) :
    OptimizedGitHubAPIClient.fetchGo events maxRetries (remaining + 1) mgr =
      ⟨(OptimizedGitHubAPIClient.fetchGo events maxRetries remaining mgr2).result,
        (OptimizedGitHubAPIClient.fetchGo events maxRetries remaining mgr2).attempts + 1,
        rot + (OptimizedGitHubAPIClient.fetchGo events maxRetries remaining mgr2).rotateCalls,
        (OptimizedGitHubAPIClient.fetchGo events maxRetries remaining mgr2).sleeps,
        (OptimizedGitHubAPIClient.fetchGo events maxRetries remaining mgr2).finalMgr⟩ := by
  simp [OptimizedGitHubAPIClient.fetchGo, he, h200, h404, hh]

theorem github_step_abandon (events : Nat → AttemptEvent) (maxRetries remaining : Nat)
    (mgr mgr2 : GitHubTokenManager) (rot : Nat) (r : Response)
    (he : events (maxRetries - (remaining + 1)) = .resp r)
    (h200 : r.status ≠ 200) (h404 : r.status ≠ 404)
    (hh : OptimizedGitHubAPIClient.handle_rate_limit mgr r = (false, mgr2, rot)) :
    OptimizedGitHubAPIClient.fetchGo events maxRetries (remaining + 1) mgr =
      ⟨none, 1, rot, [], mgr2⟩ := by
  simp [OptimizedGitHubAPIClient.fetchGo, he, h200, h404, hh]

theorem github_step_exn (events : Nat → AttemptEvent) (maxRetries remaining : Nat)
    (mgr : GitHubTokenManager)
    (he : events (maxRetries - (remaining + 1)) = .exn) :
    OptimizedGitHubAPIClient.fetchGo events maxRetries (remaining + 1) mgr =
      if maxRetries - (remaining + 1) < maxRetries - 1 then
        ⟨(OptimizedGitHubAPIClient.fetchGo events maxRetries remaining mgr).result,
          (OptimizedGitHubAPIClient.fetchGo events maxRetries remaining mgr).attempts + 1,
          (OptimizedGitHubAPIClient.fetchGo events maxRetries remaining mgr).rotateCalls,
          2 ^ (maxRetries - (remaining + 1)) ::
            (OptimizedGitHubAPIClient.fetchGo events maxRetries remaining mgr).sleeps,
          (OptimizedGitHubAPIClient.fetchGo events maxRetries remaining mgr).finalMgr⟩
      else
        ⟨(OptimizedGitHubAPIClient.fetchGo events maxRetries remaining mgr).result,
          (OptimizedGitHubAPIClient.fetchGo events maxRetries remaining mgr).attempts + 1,
          (OptimizedGitHubAPIClient.fetchGo events maxRetries remaining mgr).rotateCalls,
          (OptimizedGitHubAPIClient.fetchGo events maxRetries remaining mgr).sleeps,
          (OptimizedGitHubAPIClient.fetchGo events maxRetries remaining mgr).finalMgr⟩ := by
  simp only [OptimizedGitHubAPIClient.fetchGo, he]

theorem github_attempts_le (events : Nat → AttemptEvent) (maxRetries : Nat) :
    ∀ remaining : Nat, ∀ mgr : GitHubTokenManager,
      (OptimizedGitHubAPIClient.fetchGo events maxRetries remaining mgr).attempts ≤
        remaining := by
  intro remaining
  induction remaining with
  | zero => intro mgr; exact Nat.le_refl 0
  | succ n ih =>
    intro mgr
    rcases he : events (maxRetries - (n + 1)) with r | _
    · by_cases h200 : r.status = 200
      · rw [github_step_200 events maxRetries n mgr r he h200]
        exact Nat.succ_le_succ (Nat.zero_le n)
      · by_cases h404 : r.status = 404
        · rw [github_step_404 events maxRetries n mgr r he h404]
          exact Nat.succ_le_succ (Nat.zero_le n)
        · rcases hh : OptimizedGitHubAPIClient.handle_rate_limit mgr r with ⟨b, m2, rot⟩
          cases b
          · rw [github_step_abandon events maxRetries n mgr m2 rot r he h200 h404 hh]
            exact Nat.succ_le_succ (Nat.zero_le n)
          · rw [github_step_retry events maxRetries n mgr m2 rot r he h200 h404 hh]
            exact Nat.succ_le_succ (ih m2)
    · rw [github_step_exn events maxRetries n mgr he]
      split
      · exact Nat.succ_le_succ (ih mgr)
      · exact Nat.succ_le_succ (ih mgr)

theorem github_recoverable_none (events : Nat → AttemptEvent) (maxRetries : Nat)
    (hrec : ∀ i, OptimizedGitHubAPIClient.recoverable (events i) = true) :
    ∀ remaining : Nat, ∀ mgr : GitHubTokenManager,
      (OptimizedGitHubAPIClient.fetchGo events maxRetries remaining mgr).result = none ∧
      (OptimizedGitHubAPIClient.fetchGo events maxRetries remaining mgr).attempts =
        remaining := by
  intro remaining
  induction remaining with
  | zero => intro mgr; exact ⟨rfl, rfl⟩
  | succ n ih =>
    intro mgr
    have hr := hrec (maxRetries - (n + 1))
    rcases he : events (maxRetries - (n + 1)) with r | _
    · rw [he] at hr
      simp only [OptimizedGitHubAPIClient.recoverable, Bool.or_eq_true,
        Bool.and_eq_true, beq_iff_eq] at hr
      rcases hr with ⟨h403, hc⟩ | h401
      · have hh := handle_403 mgr r h403 (by simpa using hc)
        rw [github_step_retry events maxRetries n mgr mgr.rotate_token 1 r he
          (by omega) (by omega) hh]
        exact ⟨(ih mgr.rotate_token).1, by rw [(ih mgr.rotate_token).2]⟩
      · have hh := handle_401 mgr r h401
        rw [github_step_retry events maxRetries n mgr mgr.rotate_token 1 r he
          (by omega) (by omega) hh]
        exact ⟨(ih mgr.rotate_token).1, by rw [(ih mgr.rotate_token).2]⟩
    · rw [github_step_exn events maxRetries n mgr he]
      split
      · exact ⟨(ih mgr).1, by simp [(ih mgr).2]⟩
      · exact ⟨(ih mgr).1, by simp [(ih mgr).2]⟩

/-! ## Helper lemmas on the GitLab fetch loop -/

theorem gitlab_handle_429 (r : Response) (h : r.status = 429) :
    OptimizedGitLabAPIClient.handle_rate_limit r = (true, [60]) := by
  simp [OptimizedGitLabAPIClient.handle_rate_limit, h]

theorem gitlab_handle_noretry (r : Response) (h : r.status ≠ 429) :
    OptimizedGitLabAPIClient.handle_rate_limit r = (false, []) := by
  simp [OptimizedGitLabAPIClient.handle_rate_limit, h]

theorem gitlab_step_200 (events : Nat → AttemptEvent) (maxRetries remaining : Nat)
    (mgr : GitHubTokenManager) (r : Response)
    (he : events (maxRetries - (remaining + 1)) = .resp r) (h : r.status = 200) :
    OptimizedGitLabAPIClient.fetchGo events maxRetries (remaining + 1) mgr =
      ⟨some r.jsonBody, 1, 0, [], mgr⟩ := by
  simp [OptimizedGitLabAPIClient.fetchGo, he, h]

theorem gitlab_step_404 (events : Nat → AttemptEvent) (maxRetries remaining : Nat)
    (mgr : GitHubTokenManager) (r : Response)
    (he : events (maxRetries - (remaining + 1)) = .resp r) (h : r.status = 404) :
    OptimizedGitLabAPIClient.fetchGo events maxRetries (remaining + 1) mgr =
      ⟨none, 1, 0, [], mgr⟩ := by
  simp [OptimizedGitLabAPIClient.fetchGo, he, h]

theorem gitlab_step_retry (events : Nat → AttemptEvent) (maxRetries remaining : Nat)
    (mgr : GitHubTokenManager) (slps : List Nat) (r : Response)
    (he : events (maxRetries - (remaining + 1)) = .resp r)
    (h200 : r.status ≠ 200) (h404 : r.status ≠ 404)
    (hh : OptimizedGitLabAPIClient.handle_rate_limit r = (true, slps)) :
    OptimizedGitLabAPIClient.fetchGo events maxRetries (remaining + 1) mgr =
      ⟨(OptimizedGitLabAPIClient.fetchGo events maxRetries remaining mgr).result,
        (OptimizedGitLabAPIClient.fetchGo events maxRetries remaining mgr).attempts + 1,
        (OptimizedGitLabAPIClient.fetchGo events maxRetries remaining mgr).rotateCalls,
        slps ++ (OptimizedGitLabAPIClient.fetchGo events maxRetries remaining mgr).sleeps,
        (OptimizedGitLabAPIClient.fetchGo events maxRetries remaining mgr).finalMgr⟩ := by
  simp [OptimizedGitLabAPIClient.fetchGo, he, h200, h404, hh]

theorem gitlab_step_abandon (events : Nat → AttemptEvent) (maxRetries remaining : Nat)
    (mgr : GitHubTokenManager) (slps : List Nat) (r : Response)
    (he : events (maxRetries - (remaining + 1)) = .resp r)
    (h200 : r.status ≠ 200) (h404 : r.status ≠ 404)
    (hh : OptimizedGitLabAPIClient.handle_rate_limit r = (false, slps)) :
    OptimizedGitLabAPIClient.fetchGo events maxRetries (remaining + 1) mgr =
      ⟨none, 1, 0, slps, mgr⟩ := by
  simp [OptimizedGitLabAPIClient.fetchGo, he, h200, h404, hh]

theorem gitlab_step_exn (events : Nat → AttemptEvent) (maxRetries remaining : Nat)
    (mgr : GitHubTokenManager)
    (he : events (maxRetries - (remaining + 1)) = .exn) :
    OptimizedGitLabAPIClient.fetchGo events maxRetries (remaining + 1) mgr =
      if maxRetries - (remaining + 1) < maxRetries - 1 then
        ⟨(OptimizedGitLabAPIClient.fetchGo events maxRetries remaining mgr).result,
          (OptimizedGitLabAPIClient.fetchGo events maxRetries remaining mgr).attempts + 1,
          (OptimizedGitLabAPIClient.fetchGo events maxRetries remaining mgr).rotateCalls,
          2 ^ (maxRetries - (remaining + 1)) ::
            (OptimizedGitLabAPIClient.fetchGo events maxRetries remaining mgr).sleeps,
          (OptimizedGitLabAPIClient.fetchGo events maxRetries remaining mgr).finalMgr⟩
      else
        ⟨(OptimizedGitLabAPIClient.fetchGo events maxRetries remaining mgr).result,
          (OptimizedGitLabAPIClient.fetchGo events maxRetries remaining mgr).attempts + 1,
          (OptimizedGitLabAPIClient.fetchGo events maxRetries remaining mgr).rotateCalls,
          (OptimizedGitLabAPIClient.fetchGo events maxRetries remaining mgr).sleeps,
          (OptimizedGitLabAPIClient.fetchGo events maxRetries remaining mgr).finalMgr⟩ := by
  simp only [OptimizedGitLabAPIClient.fetchGo, he]

theorem gitlab_no_rotation (events : Nat → AttemptEvent) (maxRetries : Nat) :
    ∀ remaining : Nat, ∀ mgr : GitHubTokenManager,
      (OptimizedGitLabAPIClient.fetchGo events maxRetries remaining mgr).rotateCalls = 0 ∧
      (OptimizedGitLabAPIClient.fetchGo events maxRetries remaining mgr).finalMgr = mgr := by
  intro remaining
  induction remaining with
  | zero => intro mgr; exact ⟨rfl, rfl⟩
  | succ n ih =>
    intro mgr
    rcases he : events (maxRetries - (n + 1)) with r | _
    · by_cases h200 : r.status = 200
      · rw [gitlab_step_200 events maxRetries n mgr r he h200]; exact ⟨rfl, rfl⟩
      · by_cases h404 : r.status = 404
        · rw [gitlab_step_404 events maxRetries n mgr r he h404]; exact ⟨rfl, rfl⟩
        · rcases hh : OptimizedGitLabAPIClient.handle_rate_limit r with ⟨b, slps⟩
          cases b
          · rw [gitlab_step_abandon events maxRetries n mgr slps r he h200 h404 hh]
            exact ⟨rfl, rfl⟩
          · rw [gitlab_step_retry events maxRetries n mgr slps r he h200 h404 hh]
            exact ih mgr
    · rw [gitlab_step_exn events maxRetries n mgr he]
      split
      · exact ih mgr
      · exact ih mgr

theorem gitlab_attempts_le (events : Nat → AttemptEvent) (maxRetries : Nat) :
    ∀ remaining : Nat, ∀ mgr : GitHubTokenManager,
      (OptimizedGitLabAPIClient.fetchGo events maxRetries remaining mgr).attempts ≤
        remaining := by
  intro remaining
  induction remaining with
  | zero => intro mgr; exact Nat.le_refl 0
  | succ n ih =>
    intro mgr
    rcases he : events (maxRetries - (n + 1)) with r | _
    · by_cases h200 : r.status = 200
      · rw [gitlab_step_200 events maxRetries n mgr r he h200]
        exact Nat.succ_le_succ (Nat.zero_le n)
      · by_cases h404 : r.status = 404
        · rw [gitlab_step_404 events maxRetries n mgr r he h404]
          exact Nat.succ_le_succ (Nat.zero_le n)
        · rcases hh : OptimizedGitLabAPIClient.handle_rate_limit r with ⟨b, slps⟩
          cases b
          · rw [gitlab_step_abandon events maxRetries n mgr slps r he h200 h404 hh]
            exact Nat.succ_le_succ (Nat.zero_le n)
          · rw [gitlab_step_retry events maxRetries n mgr slps r he h200 h404 hh]
            exact Nat.succ_le_succ (ih mgr)
    · rw [gitlab_step_exn events maxRetries n mgr he]
      split
      · exact Nat.succ_le_succ (ih mgr)
      · exact Nat.succ_le_succ (ih mgr)

theorem gitlab_recoverable_none (events : Nat → AttemptEvent) (maxRetries : Nat)
    (hrec : ∀ i, OptimizedGitLabAPIClient.recoverable (events i) = true) :
    ∀ remaining : Nat, ∀ mgr : GitHubTokenManager,
      (OptimizedGitLabAPIClient.fetchGo events maxRetries remaining mgr).result = none ∧
      (OptimizedGitLabAPIClient.fetchGo events maxRetries remaining mgr).attempts =
        remaining := by
  intro remaining
  induction remaining with
  | zero => intro mgr; exact ⟨rfl, rfl⟩
  | succ n ih =>
    intro mgr
    have hr := hrec (maxRetries - (n + 1))
    rcases he : events (maxRetries - (n + 1)) with r | _
    · rw [he] at hr
      simp only [OptimizedGitLabAPIClient.recoverable, beq_iff_eq] at hr
      have hh := gitlab_handle_429 r hr
      rw [gitlab_step_retry events maxRetries n mgr [60] r he (by omega) (by omega) hh]
      exact ⟨(ih mgr).1, by rw [(ih mgr).2]⟩
    · rw [gitlab_step_exn events maxRetries n mgr he]
      split
      · exact ⟨(ih mgr).1, by simp [(ih mgr).2]⟩
      · exact ⟨(ih mgr).1, by simp [(ih mgr).2]⟩

/-! ## Claims about the fetch loops -/

/-- Claim C1, counterexample: in the GitLab client a 401 response is not
retried and does not rotate the pool cursor — the fetch performs a single
attempt, calls `rotate_token` zero times, and returns `none` with the shared
manager unchanged, so it is false that every 401 response is followed by a
rotation and a retry. -/
theorem gitlab_401_abandons :
    OptimizedGitLabAPIClient.fetch_endpoint_with_retry ⟨["a", "b"], 0⟩
      (fun _ => .resp ⟨401, none, "", 0⟩) 3 =
      ⟨none, 1, 0, [], ⟨["a", "b"], 0⟩⟩ := by
  decide

/-- Claim C1, amended: in the GitHub client every 401 response rotates the
credential pool cursor and retries, the attempt counting against the retry
bound; in the GitLab client a 401 response abandons the fetch immediately
with no rotation and no retry. -/
theorem auth_failure_rotation (mgr : GitHubTokenManager)
    (events : Nat → AttemptEvent) (maxRetries remaining : Nat) (r : Response)
    (hs : r.status = 401)
    (he : events (maxRetries - (remaining + 1)) = .resp r) :
    OptimizedGitHubAPIClient.fetchGo events maxRetries (remaining + 1) mgr =
      ⟨(OptimizedGitHubAPIClient.fetchGo events maxRetries remaining mgr.rotate_token).result,
        (OptimizedGitHubAPIClient.fetchGo events maxRetries remaining mgr.rotate_token).attempts + 1,
        1 + (OptimizedGitHubAPIClient.fetchGo events maxRetries remaining mgr.rotate_token).rotateCalls,
        (OptimizedGitHubAPIClient.fetchGo events maxRetries remaining mgr.rotate_token).sleeps,
        (OptimizedGitHubAPIClient.fetchGo events maxRetries remaining mgr.rotate_token).finalMgr⟩ ∧
    OptimizedGitLabAPIClient.fetchGo events maxRetries (remaining + 1) mgr =
      ⟨none, 1, 0, [], mgr⟩ := by
  constructor
  · exact github_step_retry events maxRetries remaining mgr mgr.rotate_token 1 r he
      (by omega) (by omega) (handle_401 mgr r hs)
  · exact gitlab_step_abandon events maxRetries remaining mgr [] r he (by omega)
      (by omega) (gitlab_handle_noretry r (by omega))

theorem auth_failure_rotation_witness :
    OptimizedGitHubAPIClient.fetchGo (fun _ => .resp ⟨401, none, "", 0⟩) 1 1
      ⟨["a", "b"], 0⟩ = ⟨none, 1, 1, [], ⟨["a", "b"], 1⟩⟩ ∧
    OptimizedGitLabAPIClient.fetchGo (fun _ => .resp ⟨401, none, "", 0⟩) 1 1
      ⟨["a", "b"], 0⟩ = ⟨none, 1, 0, [], ⟨["a", "b"], 0⟩⟩ := by
  have h := auth_failure_rotation ⟨["a", "b"], 0⟩ (fun _ => .resp ⟨401, none, "", 0⟩)
    1 0 ⟨401, none, "", 0⟩ rfl rfl
  exact ⟨h.1.trans (by decide), h.2⟩

/-- Claim C2, counterexample: the value returned for a 404 equals the value
returned when all retries are exhausted on persistent transient errors, and
also equals the value returned for a non-retried permanent HTTP error — all
three are `none`, so these outcome kinds are not distinguishable from the
value a fetch returns. -/
theorem nonsuccess_results_equal :
    (OptimizedGitHubAPIClient.fetch_endpoint_with_retry ⟨["a"], 0⟩
        (fun _ => .resp ⟨404, none, "", 7⟩) 3).result =
      (OptimizedGitHubAPIClient.fetch_endpoint_with_retry ⟨["a"], 0⟩
        (fun _ => .exn) 3).result ∧
    (OptimizedGitHubAPIClient.fetch_endpoint_with_retry ⟨["a"], 0⟩
        (fun _ => .resp ⟨404, none, "", 7⟩) 3).result =
      (OptimizedGitHubAPIClient.fetch_endpoint_with_retry ⟨["a"], 0⟩
        (fun _ => .resp ⟨500, none, "", 7⟩) 3).result :=
  ⟨rfl, rfl⟩

/-- Claim C2, amended: the fetch returns the decoded payload only on HTTP 200;
an HTTP 404, exhaustion of all retries on persistent transient errors, and a
non-retried permanent HTTP error all return the same value `none`, so only
success is distinguishable from the returned value. -/
theorem nonsuccess_collapse (mgr : GitHubTokenManager) (maxRetries : Nat)
    (e4 ep : Nat → AttemptEvent) (r4 rp : Response)
    (h4 : r4.status = 404) (he4 : e4 0 = .resp r4)
    (hp : rp.status ≠ 200 ∧ rp.status ≠ 404 ∧ rp.status ≠ 403 ∧ rp.status ≠ 401)
    (hep : ep 0 = .resp rp) :
    (OptimizedGitHubAPIClient.fetch_endpoint_with_retry mgr e4 maxRetries).result =
      none ∧
    (OptimizedGitHubAPIClient.fetch_endpoint_with_retry mgr (fun _ => .exn)
      maxRetries).result = none ∧
    (OptimizedGitHubAPIClient.fetch_endpoint_with_retry mgr ep maxRetries).result =
      none := by
  refine ⟨?_, ?_, ?_⟩
  · rcases maxRetries with _ | k
    · rfl
    · show (OptimizedGitHubAPIClient.fetchGo e4 (k + 1) (k + 1) mgr).result = none
      rw [github_step_404 e4 (k + 1) k mgr r4 (by simpa using he4) h4]
  · exact (github_recoverable_none (fun _ => .exn) maxRetries (fun _ => rfl)
      maxRetries mgr).1
  · rcases maxRetries with _ | k
    · rfl
    · show (OptimizedGitHubAPIClient.fetchGo ep (k + 1) (k + 1) mgr).result = none
      rw [github_step_abandon ep (k + 1) k mgr mgr 0 rp (by simpa using hep)
        hp.1 hp.2.1 (handle_other mgr rp hp.2.2.1 hp.2.2.2)]

theorem nonsuccess_collapse_witness :
    (OptimizedGitHubAPIClient.fetch_endpoint_with_retry ⟨["a"], 0⟩
      (fun _ => .resp ⟨404, none, "", 7⟩) 3).result = none ∧
    (OptimizedGitHubAPIClient.fetch_endpoint_with_retry ⟨["a"], 0⟩
      (fun _ => .exn) 3).result = none ∧
    (OptimizedGitHubAPIClient.fetch_endpoint_with_retry ⟨["a"], 0⟩
      (fun _ => .resp ⟨500, none, "", 7⟩) 3).result = none :=
  nonsuccess_collapse ⟨["a"], 0⟩ 3 (fun _ => .resp ⟨404, none, "", 7⟩)
    (fun _ => .resp ⟨500, none, "", 7⟩) ⟨404, none, "", 7⟩ ⟨500, none, "", 7⟩
    rfl rfl ⟨by decide, by decide, by decide, by decide⟩ rfl

/-- Claim C3: for every pool (a single-credential pool included) and every
sequence of recoverable events, a fetch performs exactly `max_retries`
attempts and then terminates with the failure value `none`; in general no
fetch ever performs more than `max_retries` attempts, and rotation on a
single-credential pool is a no-op. -/
theorem bounded_retries (mgr : GitHubTokenManager)
    (eventsH eventsL : Nat → AttemptEvent) (maxRetries : Nat)
    (hH : ∀ i, OptimizedGitHubAPIClient.recoverable (eventsH i) = true)
    (hL : ∀ i, OptimizedGitLabAPIClient.recoverable (eventsL i) = true) :
    ((OptimizedGitHubAPIClient.fetch_endpoint_with_retry mgr eventsH
        maxRetries).result = none ∧
      (OptimizedGitHubAPIClient.fetch_endpoint_with_retry mgr eventsH
        maxRetries).attempts = maxRetries) ∧
    ((OptimizedGitLabAPIClient.fetch_endpoint_with_retry mgr eventsL
        maxRetries).result = none ∧
      (OptimizedGitLabAPIClient.fetch_endpoint_with_retry mgr eventsL
        maxRetries).attempts = maxRetries) ∧
    (∀ ev : Nat → AttemptEvent, ∀ m : GitHubTokenManager,
      (OptimizedGitHubAPIClient.fetch_endpoint_with_retry m ev
        maxRetries).attempts ≤ maxRetries ∧
      (OptimizedGitLabAPIClient.fetch_endpoint_with_retry m ev
        maxRetries).attempts ≤ maxRetries) ∧
    (∀ m : GitHubTokenManager, m.tokens.length = 1 → m.rotate_token = m) := by
  refine ⟨github_recoverable_none eventsH maxRetries hH maxRetries mgr,
    gitlab_recoverable_none eventsL maxRetries hL maxRetries mgr,
    fun ev m => ⟨github_attempts_le ev maxRetries maxRetries m,
      gitlab_attempts_le ev maxRetries maxRetries m⟩,
    fun m h1 => rotate_token_noop m (by omega)⟩

theorem bounded_retries_witness :
    (OptimizedGitHubAPIClient.fetch_endpoint_with_retry ⟨["a"], 0⟩
      (fun _ => .resp ⟨401, none, "", 0⟩) 3).attempts = 3 ∧
    (OptimizedGitHubAPIClient.fetch_endpoint_with_retry ⟨["a"], 0⟩
      (fun _ => .resp ⟨401, none, "", 0⟩) 3).result = none ∧
    (OptimizedGitLabAPIClient.fetch_endpoint_with_retry ⟨["a"], 0⟩
      (fun _ => .resp ⟨429, none, "", 0⟩) 3).attempts = 3 := by
  have h := bounded_retries ⟨["a"], 0⟩ (fun _ => .resp ⟨401, none, "", 0⟩)
    (fun _ => .resp ⟨429, none, "", 0⟩) 3 (fun _ => rfl) (fun _ => rfl)
  exact ⟨h.1.2, h.1.1, h.2.1.2⟩

/-- Claim C6: a 404 response on the first attempt makes both fetchers return
the absence value immediately: exactly one attempt, no rotation, no sleep,
and the shared manager unchanged. -/
theorem notfound_immediate (mgr : GitHubTokenManager) (events : Nat → AttemptEvent)
    (maxRetries : Nat) (r : Response) (hs : r.status = 404) (hm : 0 < maxRetries)
    (he : events 0 = .resp r) :
    OptimizedGitHubAPIClient.fetch_endpoint_with_retry mgr events maxRetries =
      ⟨none, 1, 0, [], mgr⟩ ∧
    OptimizedGitLabAPIClient.fetch_endpoint_with_retry mgr events maxRetries =
      ⟨none, 1, 0, [], mgr⟩ := by
  obtain ⟨k, rfl⟩ : ∃ k, maxRetries = k + 1 := ⟨maxRetries - 1, by omega⟩
  have he' : events (k + 1 - (k + 1)) = .resp r := by simpa using he
  exact ⟨github_step_404 events (k + 1) k mgr r he' hs,
    gitlab_step_404 events (k + 1) k mgr r he' hs⟩

theorem notfound_immediate_witness :
    OptimizedGitHubAPIClient.fetch_endpoint_with_retry ⟨["a"], 0⟩
      (fun _ => .resp ⟨404, none, "", 7⟩) 3 = ⟨none, 1, 0, [], ⟨["a"], 0⟩⟩ ∧
    OptimizedGitLabAPIClient.fetch_endpoint_with_retry ⟨["a"], 0⟩
      (fun _ => .resp ⟨404, none, "", 7⟩) 3 = ⟨none, 1, 0, [], ⟨["a"], 0⟩⟩ :=
  notfound_immediate ⟨["a"], 0⟩ (fun _ => .resp ⟨404, none, "", 7⟩) 3
    ⟨404, none, "", 7⟩ rfl (by decide) rfl

/-- Claim C7: on a 429 response the GitLab fetch sleeps the fixed 60-second
cooldown and retries, consuming one attempt; it never calls `rotate_token`
and the shared cursor is unchanged by the whole fetch. -/
theorem ratelimit_429_cooldown (mgr : GitHubTokenManager)
    (events : Nat → AttemptEvent) (maxRetries remaining : Nat) (r : Response)
    (hs : r.status = 429)
    (he : events (maxRetries - (remaining + 1)) = .resp r) :
    OptimizedGitLabAPIClient.fetchGo events maxRetries (remaining + 1) mgr =
      ⟨(OptimizedGitLabAPIClient.fetchGo events maxRetries remaining mgr).result,
        (OptimizedGitLabAPIClient.fetchGo events maxRetries remaining mgr).attempts + 1,
        0,
        60 :: (OptimizedGitLabAPIClient.fetchGo events maxRetries remaining mgr).sleeps,
        mgr⟩ ∧
    (∀ rem : Nat, ∀ m : GitHubTokenManager,
      (OptimizedGitLabAPIClient.fetchGo events maxRetries rem m).rotateCalls = 0 ∧
      (OptimizedGitLabAPIClient.fetchGo events maxRetries rem m).finalMgr = m) := by
  constructor
  · rw [gitlab_step_retry events maxRetries remaining mgr [60] r he (by omega)
      (by omega) (gitlab_handle_429 r hs)]
    obtain ⟨hrc, hfm⟩ := gitlab_no_rotation events maxRetries remaining mgr
    rw [hrc, hfm]
    rfl
  · exact gitlab_no_rotation events maxRetries

theorem ratelimit_429_cooldown_witness :
    OptimizedGitLabAPIClient.fetchGo (fun _ => .resp ⟨429, none, "", 0⟩) 1 1
      ⟨["a", "b"], 0⟩ = ⟨none, 1, 0, [60], ⟨["a", "b"], 0⟩⟩ := by
  have h := (ratelimit_429_cooldown ⟨["a", "b"], 0⟩
    (fun _ => .resp ⟨429, none, "", 0⟩) 1 0 ⟨429, none, "", 0⟩ rfl rfl).1
  exact h.trans (by decide)

/-- Claim C10: on a 403 response the GitHub client rotates and retries when
the remaining-rate-limit header is zero (or absent), and also when the
lowercased body contains the rate-limit marker although the remaining header
is nonzero; a 403 with nonzero remaining quota and no marker in the body is
abandoned immediately with no rotation, no retry and no sleep. -/
theorem forbidden_rotation_condition (mgr : GitHubTokenManager)
    (events : Nat → AttemptEvent) (maxRetries remaining : Nat) (r : Response)
    (hs : r.status = 403)
    (he : events (maxRetries - (remaining + 1)) = .resp r) :
    (r.rateLimitRemaining.getD 0 = 0 →
      OptimizedGitHubAPIClient.fetchGo events maxRetries (remaining + 1) mgr =
        ⟨(OptimizedGitHubAPIClient.fetchGo events maxRetries remaining mgr.rotate_token).result,
          (OptimizedGitHubAPIClient.fetchGo events maxRetries remaining mgr.rotate_token).attempts + 1,
          1 + (OptimizedGitHubAPIClient.fetchGo events maxRetries remaining mgr.rotate_token).rotateCalls,
          (OptimizedGitHubAPIClient.fetchGo events maxRetries remaining mgr.rotate_token).sleeps,
          (OptimizedGitHubAPIClient.fetchGo events maxRetries remaining mgr.rotate_token).finalMgr⟩) ∧
    (charsContain (r.text.data.map lowerChar) rateLimitMarker = true →
      OptimizedGitHubAPIClient.fetchGo events maxRetries (remaining + 1) mgr =
        ⟨(OptimizedGitHubAPIClient.fetchGo events maxRetries remaining mgr.rotate_token).result,
          (OptimizedGitHubAPIClient.fetchGo events maxRetries remaining mgr.rotate_token).attempts + 1,
          1 + (OptimizedGitHubAPIClient.fetchGo events maxRetries remaining mgr.rotate_token).rotateCalls,
          (OptimizedGitHubAPIClient.fetchGo events maxRetries remaining mgr.rotate_token).sleeps,
          (OptimizedGitHubAPIClient.fetchGo events maxRetries remaining mgr.rotate_token).finalMgr⟩) ∧
    (r.rateLimitRemaining.getD 0 ≠ 0 →
      charsContain (r.text.data.map lowerChar) rateLimitMarker = false →
      OptimizedGitHubAPIClient.fetchGo events maxRetries (remaining + 1) mgr =
        ⟨none, 1, 0, [], mgr⟩) := by
  refine ⟨?_, ?_, ?_⟩
  · intro hz
    exact github_step_retry events maxRetries remaining mgr mgr.rotate_token 1 r he
      (by omega) (by omega) (handle_403 mgr r hs (by simp [hz]))
  · intro hc
    exact github_step_retry events maxRetries remaining mgr mgr.rotate_token 1 r he
      (by omega) (by omega) (handle_403 mgr r hs (by simp [hc]))
  · intro hz hc
    exact github_step_abandon events maxRetries remaining mgr mgr 0 r he
      (by omega) (by omega)
      (handle_403_clean mgr r hs (by simp [hz]) hc)

theorem forbidden_rotation_condition_witness :
    OptimizedGitHubAPIClient.fetchGo
      (fun _ => .resp ⟨403, some 5, "API Rate Limit Exceeded for user", 9⟩) 1 1
      ⟨["a", "b"], 0⟩ = ⟨none, 1, 1, [], ⟨["a", "b"], 1⟩⟩ := by
  have h := (forbidden_rotation_condition ⟨["a", "b"], 0⟩
    (fun _ => .resp ⟨403, some 5, "API Rate Limit Exceeded for user", 9⟩) 1 0
    ⟨403, some 5, "API Rate Limit Exceeded for user", 9⟩ rfl rfl).2.1 (by decide)
  exact h.trans (by decide)

end OSHData
